import Mathlib

/-!
Shallow embedding of `src/Rigol_view/Rigol_view.py`.

The script is a linear sequence: create a PyVISA resource manager, enumerate
resources, filter the ones whose identifier contains the substring "USB",
demand exactly one match, open the instrument with a fixed timeout and chunk
size, query the sample rate, send two configuration writes, read the channel-1
waveform as a binary block, send a key-release write, close the instrument,
and write the bytes into `channel1.wav` via the `wave` module.

The embedding makes the external world explicit: an `Env` records whether the
resource-manager constructor raises, the enumerated resource list, and the
outcome of each instrument-bus operation.  `run` replays the script on an
`Env` and returns every observable the claims mention: process exit code,
resource-manager close calls, the open-resource call and its arguments, the
trace of session events, the printed ambiguous list, the caught exception,
and the written WAV file.

Python semantics mirrored with care:
* `sys.exit(-1)` raises `SystemExit`, which derives from `BaseException`, so
  it is caught by neither `except pyvisa.errors.VisaIOError` nor
  `except Exception`; the `finally: rm.close()` still executes.  Hence on the
  ambiguous-enumeration branch `rm.close()` is called twice (line 30 and the
  `finally` on line 83).
* `scope.close()` (line 52) sits on the straight-line success path only; any
  exception raised between `open_resource` and that line skips it.
* `float(reply)` is modelled by `pyParse`, covering the full accepted
  grammar: optional sign, `inf`/`infinity`/`nan` keywords (case-insensitive),
  and decimal literals with optional fraction, exponent, and PEP-515
  underscores between digits, with surrounding whitespace stripped.  A finite
  literal is kept as its exact decimal value (`Dec`); `int(float)` is
  modelled as truncation toward zero of that exact value, which coincides
  with Python exactly when the decimal value is representable in binary64
  (decided by `dexact`).  Every theorem whose conclusion depends on the
  numeric value restricts to such replies (C1 pins the value to 10^6, which
  is representable in every decimal spelling); theorems about control flow
  depend only on whether `float()` accepts the reply, which `pyParse`
  captures in full.  (Scope: ASCII digits and whitespace; Python also maps
  non-ASCII decimal digits, which no instrument reply uses.)
* In the output block, `int(sample_rate)` raises `OverflowError` on an
  infinite value and `ValueError` on `nan`; the `wave` module's `setparams`
  rejects a non-positive frame rate (`wave.Error`); and the header pack uses
  a 32-bit `'<L'` field, so a frame rate of at least `2 ^ 32` raises
  `struct.error` at `writeframes`.  In all these cases the file was already
  created on disk by `wave.open(..., "wb")` (line 63) and the exception is
  caught by `except Exception`.  Otherwise `writeframes` writes the payload
  verbatim and the final header frame count equals the byte count (sample
  width 1, one channel; the `'<L'` frame-count field cannot overflow because
  the provider's `ieee` definite-length block format carries at most nine
  length digits, bounding the payload below `10 ^ 9` bytes).
-/

/-- Exceptions distinguished by the script's handlers: `visaIO` for
`pyvisa.errors.VisaIOError`, `valueErr` for the `float()` parse failure on
line 40, `waveErr` for `wave.Error` raised by `setparams` on a non-positive
frame rate, and `outputErr` for the other exceptions of the output block —
`OverflowError` from `int(inf)`, `ValueError` from `int(nan)`, or
`struct.error` from packing a frame rate of `2 ^ 32` or more into the
32-bit header field — all caught by the same generic `except Exception`. -/
inductive PyErr where
  | visaIO : PyErr
  | valueErr : PyErr
  | waveErr : PyErr
  | outputErr : PyErr
deriving DecidableEq

/-- Outcome of each external interaction of one run, supplied by the world:
the script consumes them in program order. -/
structure Env where
  /-- `pyvisa.ResourceManager()` raises `LibraryError`. -/
  libraryError : Bool
  /-- reply of `rm.list_resources()`. -/
  resources : List String
  /-- `rm.open_resource` raises `VisaIOError`. -/
  openFails : Bool
  /-- reply of `scope.query(':ACQ:SAMP?')`, or a bus failure. -/
  sampleReply : Except PyErr String
  /-- `scope.write(":STOP")` raises `VisaIOError`. -/
  stopFails : Bool
  /-- `scope.write(":WAV:POIN:MODE RAW")` raises `VisaIOError`. -/
  poinFails : Bool
  /-- reply of `scope.query_binary_values(":WAV:DATA? CHAN1", ...)`: the raw
  payload bytes (each 0..255) after the provider strips the block header. -/
  binaryReply : Except PyErr (List Nat)
  /-- `scope.write(":KEY:FORCE")` raises `VisaIOError`. -/
  keyForceFails : Bool

/-- A text command or binary-block query issued on the instrument session. -/
inductive Cmd where
  | query : String → Cmd
  | write : String → Cmd
  | queryBinary : String → Cmd
deriving DecidableEq

/-- Session-level events, in the order the script performs them. -/
inductive Ev where
  | openSession : String → Nat → Nat → Ev
  | cmd : Cmd → Ev
  | closeSession : Ev
deriving DecidableEq

/-- Header fields passed to `wave`'s `setparams`, as finally written. -/
structure WavParams where
  nchannels : Nat
  sampwidth : Nat
  framerate : Int
  nframes : Nat
  comptype : String
  compname : String
deriving DecidableEq

/-- The written `channel1.wav`: header fields plus payload bytes. -/
structure WavFile where
  params : WavParams
  frames : List Nat
deriving DecidableEq

/-- Observables of one run of the script. -/
structure RunResult where
  /-- process exit status: `-1` from `sys.exit(-1)`, else 0 (normal end). -/
  exitCode : Int
  /-- the resource manager was constructed. -/
  rmAcquired : Bool
  /-- number of `rm.close()` calls performed. -/
  rmCloseCalls : Nat
  /-- the list printed by the `Bad instrument list ...` message, when taken. -/
  ambiguousPrinted : Option (List String)
  /-- arguments of the (unique) `rm.open_resource` call, when attempted:
  resource name, timeout in ms, chunk size in bytes. -/
  openCall : Option (String × Nat × Nat)
  /-- session events: a successful open, each command issued, each
  `scope.close()`. -/
  events : List Ev
  /-- the sample-rate reply string, once the query returned. -/
  sampleObserved : Option String
  /-- the binary-block payload, once the read returned. -/
  blockObserved : Option (List Nat)
  /-- `channel1.wav` was created on disk (the `wave.open(..., "wb")` ran). -/
  fileCreated : Bool
  /-- the completely written WAV file, when the write block succeeded. -/
  wavFile : Option WavFile
  /-- the exception caught by the `except` handlers, when one was. -/
  caughtError : Option PyErr

/-- True when `n` is a prefix of the character list `hay` (used for Python's
substring test). -/
def leadsWith : List Char → List Char → Bool
  | [], _ => true
  | _ :: _, [] => false
  | a :: as, b :: bs => a == b && leadsWith as bs

/-- Python `needle in haystack` on strings: substring containment. -/
def containsSub (n : List Char) : List Char → Bool
  | [] => n.isEmpty
  | c :: t => leadsWith n (c :: t) || containsSub n t

/-- The filter on line 27: resources whose identifier contains `"USB"`. -/
def usbFilter (resources : List String) : List String :=
  resources.filter (fun r => containsSub "USB".toList r.toList)

/-- Decimal digit test. -/
def isDig (c : Char) : Bool := decide (48 ≤ c.toNat) && decide (c.toNat ≤ 57)

/-- Whitespace stripped by Python's `float()` around the literal. -/
def isWs (c : Char) : Bool :=
  c == ' ' || c == '\t' || c == '\n' || c == '\r' || c == '\x0b' || c == '\x0c'

/-- Value of a digit run, most significant first. -/
def digitsVal (cs : List Char) : Nat :=
  cs.foldl (fun a c => 10 * a + (c.toNat - 48)) 0

/-- Exact value of a parsed decimal literal: `num / 10 ^ scale`.  This
represents every finite decimal exactly, so the parsed value and the
truncation below stay in integer arithmetic. -/
structure Dec where
  num : Int
  scale : Nat
deriving DecidableEq

/-- The rational value a `Dec` denotes. -/
def Dec.toRat (d : Dec) : Rat := (d.num : Rat) / 10 ^ d.scale

/-- Result of Python's `float()` grammar: a finite decimal literal with its
exact value, a (signed) infinity keyword, or the nan keyword. -/
inductive PyLit where
  | dec : Dec → PyLit
  | infLit : Bool → PyLit
  | nanLit : PyLit
deriving DecidableEq

/-- Maximal digit run with PEP-515 underscores (an underscore must sit
between two digits): returns the digits with underscores removed, and the
unconsumed rest.  Ill-placed underscores (`1_`, `1__2`, `_1`) are left in
the rest, so the surrounding grammar rejects them as Python does. -/
def takeDigitsU : List Char → (List Char × List Char)
  | [] => ([], [])
  | c :: '_' :: c2 :: rest2 =>
    if isDig c then
      if isDig c2 then
        let pr := takeDigitsU (c2 :: rest2)
        (c :: pr.1, pr.2)
      else ([c], '_' :: c2 :: rest2)
    else ([], c :: '_' :: c2 :: rest2)
  | c :: rest =>
    if isDig c then
      let pr := takeDigitsU rest
      (c :: pr.1, pr.2)
    else ([], c :: rest)

/-- Exponent part: an optionally signed, possibly underscored digit run that
must be nonempty and consume the rest of the literal. -/
def expDigits (m : Dec) (neg : Bool) (ds : List Char) : Option Dec :=
  let pr := takeDigitsU ds
  if pr.1.isEmpty || !pr.2.isEmpty then none
  else some (if neg then ⟨m.num, m.scale + digitsVal pr.1⟩
             else ⟨m.num * 10 ^ digitsVal pr.1, m.scale⟩)

/-- Optional exponent after the mantissa. -/
def parseExpTail (m : Dec) : List Char → Option Dec
  | [] => some m
  | c :: rest =>
    if c == 'e' || c == 'E' then
      match rest with
      | '+' :: ds => expDigits m false ds
      | '-' :: ds => expDigits m true ds
      | ds => expDigits m false ds
    else none

/-- Unsigned decimal literal: digits with an optional fractional part, or a
fraction alone, followed by an optional exponent. -/
def parseMantissa (cs : List Char) : Option Dec :=
  let sp := takeDigitsU cs
  match sp.2 with
  | '.' :: rest2 =>
    let fr := takeDigitsU rest2
    if sp.1.isEmpty && fr.1.isEmpty then none
    else parseExpTail ⟨Int.ofNat (digitsVal sp.1 * 10 ^ fr.1.length + digitsVal fr.1),
                       fr.1.length⟩ fr.2
  | rest =>
    if sp.1.isEmpty then none
    else parseExpTail ⟨Int.ofNat (digitsVal sp.1), 0⟩ rest

/-- Unsigned literal: the case-insensitive `inf`, `infinity`, and `nan`
keywords, or a decimal literal with the sign folded in. -/
def parseUnsigned (neg : Bool) (cs : List Char) : Option PyLit :=
  let low := cs.map Char.toLower
  if low = ['i', 'n', 'f'] || low = "infinity".toList then some (PyLit.infLit neg)
  else if low = ['n', 'a', 'n'] then some PyLit.nanLit
  else (parseMantissa cs).map (fun d => PyLit.dec (if neg then ⟨-d.num, d.scale⟩ else d))

/-- Optional sign in front of the literal. -/
def parseSigned : List Char → Option PyLit
  | '+' :: rest => parseUnsigned false rest
  | '-' :: rest => parseUnsigned true rest
  | cs => parseUnsigned false cs

/-- Python `float(s)`: the accepted grammar, with finite decimal literals
kept at their exact value; `none` is the `ValueError` of a non-numeric
reply (line 40). -/
def pyParse (s : String) : Option PyLit :=
  parseSigned (((s.toList.dropWhile isWs).reverse.dropWhile isWs).reverse)

/-- The finite-decimal-literal case of `pyParse`: the reply is accepted by
`float()` and denotes the exact decimal value `d`. -/
def pyFloat (s : String) : Option Dec :=
  match pyParse s with
  | some (PyLit.dec d) => some d
  | _ => none

/-- Python `int()` on a finite float whose value is exactly the decimal
`d`: truncation toward zero (line 68). -/
def ratTrunc (d : Dec) : Int :=
  if 0 ≤ d.num then Int.ofNat (d.num.toNat / 10 ^ d.scale)
  else -(Int.ofNat (d.num.natAbs / 10 ^ d.scale))

/-- Number of factors of two, with explicit fuel (`n` halvings suffice). -/
def twoAdicF : Nat → Nat → Nat
  | 0, _ => 0
  | fuel + 1, n => if n ≠ 0 ∧ n % 2 = 0 then twoAdicF fuel (n / 2) + 1 else 0

/-- The 2-adic valuation of a positive natural number. -/
def twoAdic (n : Nat) : Nat := twoAdicF n n

/-- The decimal value `num / 10 ^ scale` is exactly representable as an IEEE
binary64 value (some `m * 2 ^ E` with `|m| < 2 ^ 53`, `-1074 ≤ E`, below the
overflow threshold).  On such replies Python's `float()` is exact, so the
model's exact-decimal truncation agrees with `int(sample_rate)`; theorems
whose conclusion depends on the numeric rate restrict to this case. -/
def dexact (d : Dec) : Bool :=
  let p5 : Int := 5 ^ d.scale
  if d.num % p5 = 0 then
    let n2 := d.num / p5
    if n2 = 0 then true
    else
      let a0 := n2.natAbs
      let t := twoAdic a0
      let a := a0 / 2 ^ t
      let E : Int := (t : Int) - (d.scale : Int)
      decide (-1074 ≤ E) &&
        (if E ≤ 971 then decide (a < 2 ^ 53)
         else decide (a * 2 ^ (E - 971).toNat < 2 ^ 53))
  else false

/-- The five command strings of the script, lines 40-51. -/
def sampCmd : Cmd := Cmd.query ":ACQ:SAMP?"

/-- Stop-acquisition write, line 44. -/
def stopCmd : Cmd := Cmd.write ":STOP"

/-- Raw-points-mode write, line 45. -/
def poinCmd : Cmd := Cmd.write ":WAV:POIN:MODE RAW"

/-- Binary-block query for channel 1, line 47. -/
def dataCmd : Cmd := Cmd.queryBinary ":WAV:DATA? CHAN1"

/-- Key-release write, line 51. -/
def keyCmd : Cmd := Cmd.write ":KEY:FORCE"

/-- One run of the script on world `env`, producing its observables.  Each
record literal below is one exit point of the Python control flow; the
`finally` close of the resource manager is folded into `rmCloseCalls`. -/
def run (env : Env) : RunResult :=
  -- lines 14-19: ResourceManager() may raise LibraryError; sys.exit(-1)
  -- before the try/finally, so no rm.close happens.
  if env.libraryError then
    { exitCode := -1, rmAcquired := false, rmCloseCalls := 0, ambiguousPrinted := none,
      openCall := none, events := [], sampleObserved := none, blockObserved := none,
      fileCreated := false, wavFile := none, caughtError := none }
  else
    -- lines 23-27: enumerate and filter on the substring 'USB'.
    let usb := usbFilter env.resources
    if usb.length ≠ 1 then
      -- lines 28-31: print the list, rm.close(), sys.exit(-1).  SystemExit
      -- escapes both except clauses; the finally closes rm a second time.
      { exitCode := -1, rmAcquired := true, rmCloseCalls := 2, ambiguousPrinted := some usb,
        openCall := none, events := [], sampleObserved := none, blockObserved := none,
        fileCreated := false, wavFile := none, caughtError := none }
    else
      -- line 33: scope_resource_name = usb_resources[0]
      let name := usb.headI
      -- line 37: open_resource(name, timeout=20000, chunk_size=1024000)
      if env.openFails then
        { exitCode := 0, rmAcquired := true, rmCloseCalls := 1, ambiguousPrinted := none,
          openCall := some (name, 20000, 1024000), events := [],
          sampleObserved := none, blockObserved := none,
          fileCreated := false, wavFile := none, caughtError := some PyErr.visaIO }
      else
        -- line 40: sample_rate = float(scope.query(':ACQ:SAMP?'))
        match env.sampleReply with
        | Except.error e =>
          { exitCode := 0, rmAcquired := true, rmCloseCalls := 1, ambiguousPrinted := none,
            openCall := some (name, 20000, 1024000),
            events := [Ev.openSession name 20000 1024000, Ev.cmd sampCmd],
            sampleObserved := none, blockObserved := none,
            fileCreated := false, wavFile := none, caughtError := some e }
        | Except.ok s =>
          match pyParse s with
          | none =>
            -- float() raises ValueError, caught by `except Exception`.
            { exitCode := 0, rmAcquired := true, rmCloseCalls := 1, ambiguousPrinted := none,
              openCall := some (name, 20000, 1024000),
              events := [Ev.openSession name 20000 1024000, Ev.cmd sampCmd],
              sampleObserved := some s, blockObserved := none,
              fileCreated := false, wavFile := none, caughtError := some PyErr.valueErr }
          | some lit =>
            -- line 44: scope.write(":STOP")
            if env.stopFails then
              { exitCode := 0, rmAcquired := true, rmCloseCalls := 1, ambiguousPrinted := none,
                openCall := some (name, 20000, 1024000),
                events := [Ev.openSession name 20000 1024000, Ev.cmd sampCmd, Ev.cmd stopCmd],
                sampleObserved := some s, blockObserved := none,
                fileCreated := false, wavFile := none, caughtError := some PyErr.visaIO }
            else
              -- line 45: scope.write(":WAV:POIN:MODE RAW")
              if env.poinFails then
                { exitCode := 0, rmAcquired := true, rmCloseCalls := 1, ambiguousPrinted := none,
                  openCall := some (name, 20000, 1024000),
                  events := [Ev.openSession name 20000 1024000, Ev.cmd sampCmd,
                             Ev.cmd stopCmd, Ev.cmd poinCmd],
                  sampleObserved := some s, blockObserved := none,
                  fileCreated := false, wavFile := none, caughtError := some PyErr.visaIO }
              else
                -- line 47: query_binary_values(":WAV:DATA? CHAN1", ...)
                match env.binaryReply with
                | Except.error e =>
                  { exitCode := 0, rmAcquired := true, rmCloseCalls := 1, ambiguousPrinted := none,
                    openCall := some (name, 20000, 1024000),
                    events := [Ev.openSession name 20000 1024000, Ev.cmd sampCmd,
                               Ev.cmd stopCmd, Ev.cmd poinCmd, Ev.cmd dataCmd],
                    sampleObserved := some s, blockObserved := none,
                    fileCreated := false, wavFile := none, caughtError := some e }
                | Except.ok bs =>
                  -- line 51: scope.write(":KEY:FORCE")
                  if env.keyForceFails then
                    { exitCode := 0, rmAcquired := true, rmCloseCalls := 1, ambiguousPrinted := none,
                      openCall := some (name, 20000, 1024000),
                      events := [Ev.openSession name 20000 1024000, Ev.cmd sampCmd,
                                 Ev.cmd stopCmd, Ev.cmd poinCmd, Ev.cmd dataCmd, Ev.cmd keyCmd],
                      sampleObserved := some s, blockObserved := some bs,
                      fileCreated := false, wavFile := none, caughtError := some PyErr.visaIO }
                  else
                    -- line 52: scope.close(); lines 63-71: wave write with
                    -- setparams((1, 1, int(sample_rate), data_size, "NONE",
                    -- "not compressed")) and writeframes(raw bytes).  The
                    -- file itself is created by wave.open on line 63 before
                    -- any of the conversions below can raise.
                    match lit with
                    | PyLit.dec q =>
                      let rate := ratTrunc q
                      if rate ≤ 0 then
                        -- wave's setframerate raises wave.Error on a
                        -- non-positive rate: the file exists but is
                        -- invalid, and `except Exception` catches it.
                        { exitCode := 0, rmAcquired := true, rmCloseCalls := 1,
                          ambiguousPrinted := none,
                          openCall := some (name, 20000, 1024000),
                          events := [Ev.openSession name 20000 1024000, Ev.cmd sampCmd,
                                     Ev.cmd stopCmd, Ev.cmd poinCmd, Ev.cmd dataCmd,
                                     Ev.cmd keyCmd, Ev.closeSession],
                          sampleObserved := some s, blockObserved := some bs,
                          fileCreated := true, wavFile := none,
                          caughtError := some PyErr.waveErr }
                      else if (2 ^ 32 : Int) ≤ rate then
                        -- the 32-bit header field: writeframes packs the
                        -- frame rate with struct format '<L', which raises
                        -- struct.error at 2^32 and above (and int() itself
                        -- overflows once the reply rounds to inf); caught
                        -- by `except Exception`, no valid container.
                        { exitCode := 0, rmAcquired := true, rmCloseCalls := 1,
                          ambiguousPrinted := none,
                          openCall := some (name, 20000, 1024000),
                          events := [Ev.openSession name 20000 1024000, Ev.cmd sampCmd,
                                     Ev.cmd stopCmd, Ev.cmd poinCmd, Ev.cmd dataCmd,
                                     Ev.cmd keyCmd, Ev.closeSession],
                          sampleObserved := some s, blockObserved := some bs,
                          fileCreated := true, wavFile := none,
                          caughtError := some PyErr.outputErr }
                      else
                        { exitCode := 0, rmAcquired := true, rmCloseCalls := 1,
                          ambiguousPrinted := none,
                          openCall := some (name, 20000, 1024000),
                          events := [Ev.openSession name 20000 1024000, Ev.cmd sampCmd,
                                     Ev.cmd stopCmd, Ev.cmd poinCmd, Ev.cmd dataCmd,
                                     Ev.cmd keyCmd, Ev.closeSession],
                          sampleObserved := some s, blockObserved := some bs,
                          fileCreated := true,
                          wavFile := some ⟨⟨1, 1, rate, bs.length, "NONE", "not compressed"⟩, bs⟩,
                          caughtError := none }
                    | PyLit.infLit _ =>
                      -- int(inf) raises OverflowError on line 68, caught by
                      -- `except Exception`; the file exists but is empty.
                      { exitCode := 0, rmAcquired := true, rmCloseCalls := 1,
                        ambiguousPrinted := none,
                        openCall := some (name, 20000, 1024000),
                        events := [Ev.openSession name 20000 1024000, Ev.cmd sampCmd,
                                   Ev.cmd stopCmd, Ev.cmd poinCmd, Ev.cmd dataCmd,
                                   Ev.cmd keyCmd, Ev.closeSession],
                        sampleObserved := some s, blockObserved := some bs,
                        fileCreated := true, wavFile := none,
                        caughtError := some PyErr.outputErr }
                    | PyLit.nanLit =>
                      -- int(nan) raises ValueError on line 68, caught by
                      -- `except Exception`; the file exists but is empty.
                      { exitCode := 0, rmAcquired := true, rmCloseCalls := 1,
                        ambiguousPrinted := none,
                        openCall := some (name, 20000, 1024000),
                        events := [Ev.openSession name 20000 1024000, Ev.cmd sampCmd,
                                   Ev.cmd stopCmd, Ev.cmd poinCmd, Ev.cmd dataCmd,
                                   Ev.cmd keyCmd, Ev.closeSession],
                        sampleObserved := some s, blockObserved := some bs,
                        fileCreated := true, wavFile := none,
                        caughtError := some PyErr.outputErr }

/-- A session open happened (an `openSession` event occurred). -/
def RunResult.sessionOpened (r : RunResult) : Bool :=
  r.events.any (fun e => match e with | Ev.openSession _ _ _ => true | _ => false)

/-- Number of `scope.close()` calls performed. -/
def RunResult.sessionCloseCalls (r : RunResult) : Nat :=
  (r.events.filter (fun e => match e with | Ev.closeSession => true | _ => false)).length

/-- The commands issued on the session, in order. -/
def RunResult.cmds (r : RunResult) : List Cmd :=
  r.events.filterMap (fun e => match e with | Ev.cmd c => some c | _ => none)

/-- All device steps of lines 37-51 succeed and `float()` accepts the
sample-rate reply (finite, infinite, or nan alike — the value is only
consumed later, on line 68): exactly the runs that reach `scope.close()` on
line 52. -/
def deviceStepsOk (env : Env) : Bool :=
  !env.openFails &&
  (match env.sampleReply with
   | Except.ok s => (pyParse s).isSome
   | Except.error _ => false) &&
  !env.stopFails && !env.poinFails &&
  (match env.binaryReply with | Except.ok _ => true | Except.error _ => false) &&
  !env.keyForceFails

/-- Truncating a decimal that denotes the natural number `n` yields `n`. -/
theorem ratTrunc_eq_of_toRat (q : Dec) (n : Nat) (h : q.toRat = n) : ratTrunc q = n := by
  have hpow : ((10 : Rat) ^ q.scale) ≠ 0 := by positivity
  rw [Dec.toRat, div_eq_iff hpow] at h
  have hnum : q.num = (n * 10 ^ q.scale : Nat) := by exact_mod_cast h
  have hpos : 0 ≤ q.num := by rw [hnum]; exact Int.ofNat_nonneg _
  rw [ratTrunc, if_pos hpos]
  have htn : q.num.toNat = n * 10 ^ q.scale := by rw [hnum]; exact Int.toNat_ofNat _
  rw [htn, Nat.mul_div_cancel _ (Nat.pos_pow_of_pos _ (by norm_num))]
  rfl

/-- On a run where every device step succeeds and `float()` accepts the
reply, `run` is the full record up to and including `scope.close()`; the
output block then depends only on the parsed literal: a finite decimal with
truncated rate in `(0, 2 ^ 32)` yields the file, a non-positive rate is
rejected by the `wave` module, a rate of `2 ^ 32` or more overflows the
32-bit header field, and an infinite or nan value fails at `int()`. -/
theorem run_devOk (env : Env) (name s : String) (lit : PyLit) (bs : List Nat)
    (hlib : env.libraryError = false)
    (husb : usbFilter env.resources = [name])
    (hopen : env.openFails = false)
    (hs : env.sampleReply = Except.ok s)
    (hq : pyParse s = some lit)
    (hstop : env.stopFails = false)
    (hpoin : env.poinFails = false)
    (hbin : env.binaryReply = Except.ok bs)
    (hkey : env.keyForceFails = false) :
    run env =
      { exitCode := 0, rmAcquired := true, rmCloseCalls := 1, ambiguousPrinted := none,
        openCall := some (name, 20000, 1024000),
        events := [Ev.openSession name 20000 1024000, Ev.cmd sampCmd, Ev.cmd stopCmd,
                   Ev.cmd poinCmd, Ev.cmd dataCmd, Ev.cmd keyCmd, Ev.closeSession],
        sampleObserved := some s, blockObserved := some bs,
        fileCreated := true,
        wavFile :=
          match lit with
          | PyLit.dec q =>
            if ratTrunc q ≤ 0 ∨ (2 ^ 32 : Int) ≤ ratTrunc q then none
            else some ⟨⟨1, 1, ratTrunc q, bs.length, "NONE", "not compressed"⟩, bs⟩
          | _ => none,
        caughtError :=
          match lit with
          | PyLit.dec q =>
            if ratTrunc q ≤ 0 then some PyErr.waveErr
            else if (2 ^ 32 : Int) ≤ ratTrunc q then some PyErr.outputErr
            else none
          | _ => some PyErr.outputErr } := by
  simp only [run, hlib, husb, hopen, hs, hq, hstop, hpoin, hbin, hkey]
  cases lit with
  | dec q =>
    by_cases hrate : ratTrunc q ≤ 0
    · simp [hrate, List.headI]
    · by_cases hub : (4294967296 : Int) ≤ ratTrunc q <;> simp [hrate, hub, List.headI]
  | infLit b => simp [List.headI]
  | nanLit => simp [List.headI]

/-- A reply with a finite decimal parse is accepted by the full grammar with
that literal. -/
theorem pyFloat_eq_some (s : String) (q : Dec) (h : pyFloat s = some q) :
    pyParse s = some (PyLit.dec q) := by
  rw [pyFloat] at h
  rcases hpp : pyParse s with _ | lit <;> rw [hpp] at h
  · exact absurd h (by simp)
  · rcases lit with d | b | _
    · simp only [Option.some.injEq] at h
      rw [h]
    · exact absurd h (by simp)
    · exact absurd h (by simp)

/-- A fully successful world: one USB resource, a parsable sample-rate reply
of one megasample per second, a three-byte waveform block. -/
def envGood : Env :=
  { libraryError := false, resources := ["USB0::0x1AB1::INSTR"], openFails := false,
    sampleReply := Except.ok "1000000.0", stopFails := false, poinFails := false,
    binaryReply := Except.ok [0, 1, 255], keyForceFails := false }

/-- C1: for every sample-rate reply parsing to the value 1000000 and every
waveform byte block `bs` returned by the binary-block read, the written
`channel1.wav` has 1 channel, sample width 1, compression `"NONE"`, frame
rate 1000000, frame count `bs.length`, and payload byte-for-byte equal to
`bs`. -/
theorem c1_wav_container_roundtrip (env : Env) (name s : String) (q : Dec) (bs : List Nat)
    (hlib : env.libraryError = false)
    (husb : usbFilter env.resources = [name])
    (hopen : env.openFails = false)
    (hs : env.sampleReply = Except.ok s)
    (hq : pyFloat s = some q)
    (hval : q.toRat = 1000000)
    (hstop : env.stopFails = false)
    (hpoin : env.poinFails = false)
    (hbin : env.binaryReply = Except.ok bs)
    (hkey : env.keyForceFails = false) :
    (run env).wavFile =
      some ⟨⟨1, 1, 1000000, bs.length, "NONE", "not compressed"⟩, bs⟩ := by
  have h1 : ratTrunc q = 1000000 :=
    ratTrunc_eq_of_toRat q 1000000 (by exact_mod_cast hval)
  rw [run_devOk env name s (PyLit.dec q) bs hlib husb hopen hs
      (pyFloat_eq_some s q hq) hstop hpoin hbin hkey]
  simp [h1]

/-- C1 witness: the round-trip at a concrete world. -/
theorem c1_witness :
    (run envGood).wavFile =
      some ⟨⟨1, 1, 1000000, 3, "NONE", "not compressed"⟩, [0, 1, 255]⟩ :=
  c1_wav_container_roundtrip envGood "USB0::0x1AB1::INSTR" "1000000.0" ⟨10000000, 1⟩
    [0, 1, 255] rfl (by decide) rfl rfl (by decide) (by norm_num [Dec.toRat]) rfl rfl rfl rfl

/-- C2: when the USB filter does not single out exactly one identifier, the
run exits with status `-1`, prints the filtered candidate list, and never
attempts (let alone performs) a session open. -/
theorem c2_ambiguous_fatal (env : Env)
    (hlib : env.libraryError = false)
    (husb : (usbFilter env.resources).length ≠ 1) :
    (run env).exitCode = -1 ∧
      (run env).ambiguousPrinted = some (usbFilter env.resources) ∧
      (run env).openCall = none ∧
      (run env).sessionOpened = false := by
  simp [run, hlib, husb, RunResult.sessionOpened]

/-- C2 witness: an empty resource list. -/
theorem c2_witness :
    (run { envGood with resources := [] }).exitCode = -1 ∧
      (run { envGood with resources := [] }).ambiguousPrinted = some [] ∧
      (run { envGood with resources := [] }).openCall = none ∧
      (run { envGood with resources := [] }).sessionOpened = false :=
  c2_ambiguous_fatal { envGood with resources := [] } rfl (by decide)

/-- C3: whenever the filter yields exactly one USB identifier, the (single)
`open_resource` call is made on that identifier with timeout 20000 ms and
chunk size 1024000 bytes, constants independent of the device; and when the
open does not fail, the session is indeed opened. -/
theorem c3_open_fixed_params (env : Env) (name : String)
    (hlib : env.libraryError = false)
    (husb : usbFilter env.resources = [name]) :
    (run env).openCall = some (name, 20000, 1024000) ∧
      (env.openFails = false → (run env).sessionOpened = true) := by
  rcases env with ⟨lib, res, of, sr, st, pf, br, kf⟩
  simp only [Env.libraryError] at hlib
  simp only [Env.resources] at husb
  subst hlib
  cases of
  · rcases sr with e | s
    · simp [run, husb, RunResult.sessionOpened, List.headI]
    · rcases hq : pyParse s with _ | lit
      · simp [run, husb, RunResult.sessionOpened, List.headI, hq]
      · rcases lit with q | b | _ <;> cases st <;> cases pf <;>
          rcases br with e2 | bs2 <;> cases kf <;>
          simp [run, husb, RunResult.sessionOpened, List.headI, hq] <;>
          (try split_ifs) <;> simp [RunResult.sessionOpened]
  · simp [run, husb, RunResult.sessionOpened, List.headI]

/-- C3 witness: the single-resource world opens with the fixed constants. -/
theorem c3_witness :
    (run envGood).openCall = some ("USB0::0x1AB1::INSTR", 20000, 1024000) ∧
      (envGood.openFails = false → (run envGood).sessionOpened = true) :=
  c3_open_fixed_params envGood "USB0::0x1AB1::INSTR" rfl (by decide)

/-- C4: a bus failure at the open, the sample-rate query, either
configuration write, or the binary-block read leaves no output file (the
`wave.open` on line 63 is never reached), and the resource manager is still
closed by the `finally`. -/
theorem c4_no_partial_output (env : Env)
    (hlib : env.libraryError = false)
    (husb : (usbFilter env.resources).length = 1)
    (hfail : env.openFails = true ∨ (∃ e, env.sampleReply = Except.error e) ∨
             env.stopFails = true ∨ env.poinFails = true ∨
             (∃ e, env.binaryReply = Except.error e)) :
    (run env).fileCreated = false ∧ (run env).wavFile = none ∧
      (run env).rmCloseCalls = 1 := by
  rcases env with ⟨lib, res, of, sr, st, pf, br, kf⟩
  simp only [Env.libraryError] at hlib
  simp only [Env.resources] at husb
  simp only [Env.openFails, Env.sampleReply, Env.stopFails, Env.poinFails,
             Env.binaryReply] at hfail
  subst hlib
  cases of
  · rcases sr with e | s
    · simp [run, husb]
    · rcases hq : pyParse s with _ | lit
      · simp_all [run, husb, hq]
      · rcases lit with q | b | _ <;> cases st <;> cases pf <;>
          rcases br with e2 | bs2 <;> cases kf <;>
          simp_all [run, husb, hq]
  · simp [run, husb]

/-- A world whose binary-block read fails with a bus error. -/
def envBinFail : Env := { envGood with binaryReply := Except.error PyErr.visaIO }

/-- C4 witness: a failing binary-block read leaves no file and one rm close. -/
theorem c4_witness :
    (run envBinFail).fileCreated = false ∧ (run envBinFail).wavFile = none ∧
      (run envBinFail).rmCloseCalls = 1 :=
  c4_no_partial_output envBinFail rfl (by decide)
    (Or.inr (Or.inr (Or.inr (Or.inr ⟨PyErr.visaIO, rfl⟩))))

/-- C5 counterexample: with an empty enumeration the resource manager is
acquired but `rm.close()` runs twice — once on line 30 and once in the
`finally` (because `sys.exit` raises `SystemExit`, which the two `except`
clauses do not catch) — refuting "released exactly once". -/
theorem c5_counterexample :
    (run { envGood with resources := [] }).rmAcquired = true ∧
      (run { envGood with resources := [] }).rmCloseCalls ≠ 1 := by decide

/-- C5 amended: once acquired, the bus-access handle is released on every
exit path at least once; the count is exactly one everywhere except on the
ambiguous-enumeration path, where the release is invoked twice. -/
theorem c5_release_counts (env : Env) (h : env.libraryError = false) :
    (run env).rmAcquired = true ∧ 1 ≤ (run env).rmCloseCalls ∧
      (run env).rmCloseCalls =
        (if (usbFilter env.resources).length ≠ 1 then 2 else 1) := by
  rcases env with ⟨lib, res, of, sr, st, pf, br, kf⟩
  simp only [Env.libraryError] at h
  subst h
  by_cases husb : (usbFilter res).length = 1
  · cases of
    · rcases sr with e | s
      · simp [run, husb]
      · rcases hq : pyParse s with _ | lit
        · simp [run, husb, hq]
        · rcases lit with q | b | _ <;> cases st <;> cases pf <;>
            rcases br with e2 | bs2 <;> cases kf <;>
            simp [run, husb, hq] <;> (try split_ifs) <;> simp
    · simp [run, husb]
  · simp [run, husb]

/-- C5 witness: on the fully successful world the handle is closed once. -/
theorem c5_witness :
    (run envGood).rmAcquired = true ∧ 1 ≤ (run envGood).rmCloseCalls ∧
      (run envGood).rmCloseCalls =
        (if (usbFilter envGood.resources).length ≠ 1 then 2 else 1) :=
  c5_release_counts envGood rfl

/-- Nothing may follow the session close in the event trace. -/
def tailAfterClose : List Ev → Bool
  | [] => true
  | _ :: _ => false

/-- After the open: commands are allowed, one close ends the session. -/
def tailInSession : List Ev → Bool
  | [] => true
  | Ev.cmd _ :: rest => tailInSession rest
  | Ev.closeSession :: rest => tailAfterClose rest
  | Ev.openSession _ _ _ :: _ => false

/-- The trace opens the session before any command, issues commands only
while it is open, and closes it at most once with nothing after. -/
def sessionOrderOk : List Ev → Bool
  | [] => true
  | Ev.openSession _ _ _ :: rest => tailInSession rest
  | _ => false

/-- C6 counterexample: when the binary-block read fails, the session was
opened but `scope.close()` (line 52) is never reached, refuting "closed
exactly once regardless of success or failure". -/
theorem c6_counterexample :
    (run envBinFail).sessionOpened = true ∧
      (run envBinFail).sessionCloseCalls ≠ 1 := by decide

/-- C6 amended: the session is open before any query, write, or binary read
is issued on it (the event trace is well ordered), and the session close on
line 52 runs exactly once on runs where every device step succeeds and
`float()` accepts the reply (whatever its value — a later failure inside
the output block does not undo the close) — and zero times on every failure
path between the open and line 52. -/
theorem c6_session_discipline (env : Env)
    (hlib : env.libraryError = false)
    (husb : (usbFilter env.resources).length = 1) :
    sessionOrderOk (run env).events = true ∧
      (run env).sessionCloseCalls = (if deviceStepsOk env then 1 else 0) := by
  rcases env with ⟨lib, res, of, sr, st, pf, br, kf⟩
  simp only [Env.libraryError] at hlib
  simp only [Env.resources] at husb
  subst hlib
  cases of
  · rcases sr with e | s
    · simp [run, husb, deviceStepsOk, sessionOrderOk, tailInSession, tailAfterClose,
            RunResult.sessionCloseCalls]
    · rcases hq : pyParse s with _ | lit
      · simp [run, husb, hq, deviceStepsOk, sessionOrderOk, tailInSession, tailAfterClose,
              RunResult.sessionCloseCalls]
      · rcases lit with q | b | _ <;> cases st <;> cases pf <;>
          rcases br with e2 | bs2 <;> cases kf <;>
          simp [run, husb, hq, deviceStepsOk, sessionOrderOk, tailInSession, tailAfterClose,
                RunResult.sessionCloseCalls] <;>
          (try split_ifs) <;>
          simp [RunResult.sessionCloseCalls, tailInSession, tailAfterClose]
  · simp [run, husb, deviceStepsOk, sessionOrderOk, tailInSession, tailAfterClose,
          RunResult.sessionCloseCalls]

/-- C6 witness: the fully successful world closes its session exactly once. -/
theorem c6_witness :
    sessionOrderOk (run envGood).events = true ∧
      (run envGood).sessionCloseCalls = (if deviceStepsOk envGood then 1 else 0) :=
  c6_session_discipline envGood rfl (by decide)

/-- C7: the exit status is `-1` exactly on initialization failure or a USB
match count other than one; every other failure is caught by an `except`
handler and the process falls through to the normal exit status 0. -/
theorem c7_exit_codes (env : Env) :
    ((run env).exitCode = -1 ↔
      (env.libraryError = true ∨ (usbFilter env.resources).length ≠ 1)) ∧
    ((run env).exitCode = -1 ∨ (run env).exitCode = 0) ∧
    (env.libraryError = false → (usbFilter env.resources).length = 1 →
      deviceStepsOk env = false →
      (run env).caughtError.isSome = true ∧ (run env).exitCode = 0) := by
  rcases env with ⟨lib, res, of, sr, st, pf, br, kf⟩
  simp only [Env.libraryError, Env.resources]
  cases lib
  · by_cases husb : (usbFilter res).length = 1
    · cases of
      · rcases sr with e | s
        · simp [run, husb, deviceStepsOk]
        · rcases hq : pyParse s with _ | lit
          · simp [run, husb, hq, deviceStepsOk]
          · rcases lit with q | b | _ <;> cases st <;> cases pf <;>
              rcases br with e2 | bs2 <;> cases kf <;>
              simp [run, husb, hq, deviceStepsOk] <;> (try split_ifs) <;> simp
      · simp [run, husb, deviceStepsOk]
    · simp [run, husb]
  · simp [run]

/-- C7 witness: initialization failure exits with `-1`. -/
theorem c7_witness : (run { envGood with libraryError := true }).exitCode = -1 :=
  (c7_exit_codes { envGood with libraryError := true }).1.mpr (Or.inl rfl)

/-- C8: on a run where every device step succeeds and `float()` accepts the
reply, the instrument receives exactly `:ACQ:SAMP?`, `:STOP`,
`:WAV:POIN:MODE RAW`, `:WAV:DATA? CHAN1`, `:KEY:FORCE`, verbatim and in
that order; and a reply the full `float()` grammar rejects propagates as a
`ValueError` that aborts the run right after the first command, with no
output file. -/
theorem c8_command_protocol (env : Env) (name s : String)
    (hlib : env.libraryError = false)
    (husb : usbFilter env.resources = [name])
    (hopen : env.openFails = false)
    (hs : env.sampleReply = Except.ok s) :
    (deviceStepsOk env = true →
      (run env).cmds = [Cmd.query ":ACQ:SAMP?", Cmd.write ":STOP",
        Cmd.write ":WAV:POIN:MODE RAW", Cmd.queryBinary ":WAV:DATA? CHAN1",
        Cmd.write ":KEY:FORCE"]) ∧
    (pyParse s = none →
      (run env).caughtError = some PyErr.valueErr ∧ (run env).wavFile = none ∧
        (run env).cmds = [Cmd.query ":ACQ:SAMP?"]) := by
  rcases env with ⟨lib, res, of, sr, st, pf, br, kf⟩
  simp only [Env.libraryError] at hlib
  simp only [Env.resources] at husb
  simp only [Env.openFails] at hopen
  simp only [Env.sampleReply] at hs
  subst hlib
  subst hopen
  subst hs
  rcases hq : pyParse s with _ | lit
  · simp [run, husb, hq, deviceStepsOk, RunResult.cmds, sampCmd]
  · rcases lit with q | b | _ <;> cases st <;> cases pf <;>
      rcases br with e2 | bs2 <;> cases kf <;>
      simp [run, husb, hq, deviceStepsOk, RunResult.cmds, sampCmd, stopCmd, poinCmd,
            dataCmd, keyCmd] <;>
      (try split_ifs) <;>
      simp [RunResult.cmds, sampCmd, stopCmd, poinCmd, dataCmd, keyCmd]

/-- C8 witness: the success trace at a concrete world. -/
theorem c8_witness :
    (run envGood).cmds = [Cmd.query ":ACQ:SAMP?", Cmd.write ":STOP",
      Cmd.write ":WAV:POIN:MODE RAW", Cmd.queryBinary ":WAV:DATA? CHAN1",
      Cmd.write ":KEY:FORCE"] :=
  (c8_command_protocol envGood "USB0::0x1AB1::INSTR" "1000000.0" rfl (by decide)
    rfl rfl).1 (by decide)

/-- C9: an empty waveform byte block still yields a written container whose
header declares zero frames and whose payload is empty.  The surrounding
success conditions any write needs apply: the reply is a finite decimal
whose value is exactly representable in binary64 (so the model's truncation
is Python's `int(sample_rate)`) and the truncated rate lies in the range
the `wave` module accepts, `(0, 2 ^ 32)`. -/
theorem c9_empty_block (env : Env) (name s : String) (q : Dec)
    (hlib : env.libraryError = false)
    (husb : usbFilter env.resources = [name])
    (hopen : env.openFails = false)
    (hs : env.sampleReply = Except.ok s)
    (hq : pyFloat s = some q)
    (hex : dexact q = true)
    (hrate : 0 < ratTrunc q)
    (hub : ratTrunc q < 2 ^ 32)
    (hstop : env.stopFails = false)
    (hpoin : env.poinFails = false)
    (hbin : env.binaryReply = Except.ok [])
    (hkey : env.keyForceFails = false) :
    (run env).wavFile =
      some ⟨⟨1, 1, ratTrunc q, 0, "NONE", "not compressed"⟩, []⟩ := by
  have hcond : ¬(ratTrunc q ≤ 0 ∨ (2 ^ 32 : Int) ≤ ratTrunc q) := by
    push_neg
    exact ⟨hrate, hub⟩
  rw [run_devOk env name s (PyLit.dec q) [] hlib husb hopen hs
      (pyFloat_eq_some s q hq) hstop hpoin hbin hkey]
  simp [if_neg hcond]
  refine ⟨hrate, ?_⟩
  norm_num at hub
  exact hub

/-- C9 witness: the empty block at a concrete world. -/
theorem c9_witness :
    (run { envGood with binaryReply := Except.ok [] }).wavFile =
      some ⟨⟨1, 1, 1000000, 0, "NONE", "not compressed"⟩, []⟩ :=
  c9_empty_block { envGood with binaryReply := Except.ok [] }
    "USB0::0x1AB1::INSTR" "1000000.0" ⟨10000000, 1⟩ rfl (by decide) rfl rfl
    (by decide) (by decide) (by decide) (by decide) rfl rfl rfl rfl

/-- A world identical to `envGood` except that the `:KEY:FORCE` write fails
after the binary-block read has already returned. -/
def envKeyFail : Env := { envGood with keyForceFails := true }

/-- C10 counterexample: two runs enumerate the same resource list, observe
the same sample-rate reply string and the same binary block, yet the written
output differs — the second run's `:KEY:FORCE` write fails after the read,
so the exception handler is entered before `wave.open` and no file appears. -/
theorem c10_counterexample :
    envGood.resources = envKeyFail.resources ∧
      (run envGood).sampleObserved = (run envKeyFail).sampleObserved ∧
      (run envGood).sampleObserved.isSome = true ∧
      (run envGood).blockObserved = (run envKeyFail).blockObserved ∧
      (run envGood).blockObserved.isSome = true ∧
      (run envGood).wavFile ≠ (run envKeyFail).wavFile := by decide

/-- Unpacking `deviceStepsOk` into the per-step facts. -/
theorem deviceStepsOk_elim (env : Env) (h : deviceStepsOk env = true) :
    env.openFails = false ∧
      (∃ s lit, env.sampleReply = Except.ok s ∧ pyParse s = some lit) ∧
      env.stopFails = false ∧ env.poinFails = false ∧
      (∃ bs, env.binaryReply = Except.ok bs) ∧ env.keyForceFails = false := by
  rcases hsr : env.sampleReply with e | s
  · rw [deviceStepsOk, hsr] at h; simp at h
  · rcases hbr : env.binaryReply with e2 | bs
    · rw [deviceStepsOk, hsr, hbr] at h; simp at h
    · rw [deviceStepsOk, hsr, hbr] at h
      simp only [Bool.and_eq_true, Bool.not_eq_true'] at h
      obtain ⟨lit, hq2⟩ :=
        Option.isSome_iff_exists.mp (by tauto : (pyParse s).isSome = true)
      refine ⟨by tauto, ⟨s, lit, ?_, hq2⟩, by tauto, by tauto, ⟨bs, ?_⟩, by tauto⟩ <;> rfl

/-- C10 amended: determinism holds once the whole device sequence succeeds
in both runs — same resource list, same sample-rate reply, same binary
block, and all device steps (including the final `:KEY:FORCE`) succeeding
give bit-identical output files. -/
theorem c10_deterministic (e1 e2 : Env)
    (hlib1 : e1.libraryError = false) (hlib2 : e2.libraryError = false)
    (hok1 : deviceStepsOk e1 = true) (hok2 : deviceStepsOk e2 = true)
    (hres : e1.resources = e2.resources)
    (hsr : e1.sampleReply = e2.sampleReply)
    (hbr : e1.binaryReply = e2.binaryReply) :
    (run e1).wavFile = (run e2).wavFile ∧
      (run e1).fileCreated = (run e2).fileCreated := by
  obtain ⟨hof1, ⟨s1, l1, hs1, hq1⟩, hst1, hpf1, ⟨bs1, hb1⟩, hkf1⟩ := deviceStepsOk_elim e1 hok1
  obtain ⟨hof2, ⟨s2, l2, hs2, hq2⟩, hst2, hpf2, ⟨bs2, hb2⟩, hkf2⟩ := deviceStepsOk_elim e2 hok2
  have hss : s1 = s2 := by
    rw [hs1, hs2] at hsr
    exact Except.ok.inj hsr
  subst hss
  have hll : l1 = l2 := Option.some.inj (hq1.symm.trans hq2)
  subst hll
  have hbb : bs1 = bs2 := by
    rw [hb1, hb2] at hbr
    exact Except.ok.inj hbr
  subst hbb
  by_cases husb : (usbFilter e1.resources).length = 1
  · obtain ⟨name, hname⟩ := List.length_eq_one.mp husb
    have hname2 : usbFilter e2.resources = [name] := by rw [← hres]; exact hname
    rw [run_devOk e1 name s1 l1 bs1 hlib1 hname hof1 hs1 hq1 hst1 hpf1 hb1 hkf1,
        run_devOk e2 name s1 l1 bs1 hlib2 hname2 hof2 hs2 hq2 hst2 hpf2 hb2 hkf2]
    exact ⟨rfl, rfl⟩
  · have husb2 : ¬(usbFilter e2.resources).length = 1 := by rw [← hres]; exact husb
    constructor <;> simp [run, hlib1, hlib2, husb, husb2]

/-- C10 witness: the amended determinism applied at a concrete world. -/
theorem c10_witness :
    (run envGood).wavFile = (run envGood).wavFile ∧
      (run envGood).fileCreated = (run envGood).fileCreated :=
  c10_deterministic envGood envGood rfl rfl (by decide) (by decide) rfl rfl rfl
